import Mathlib

/-!
Shallow embedding of the gsd-rs data-access layer (src/lib.rs, src/fl.rs,
src/hoomd.rs) together with theorems settling the behavioural claims about
it.  Machine integers (`u8`..`u64`, `usize`) are embedded as `Nat`;
element payloads of chunks are carried as abstract lists (the layer never
computes on element values, it only moves them), so the same development
covers all ten supported scalar element types, floating point included.
Rust panics are embedded as typed error outcomes of `Except`, so that
every control path of the source is an inspectable value.
-/

deriving instance DecidableEq for Except

namespace GsdRs

/-! ## Scalar types and storage tags (src/lib.rs) -/

/-- The storage-level type tags, mirroring `enum GSDType` in src/lib.rs. -/
inductive GSDType where
  | UINT8 | UINT16 | UINT32 | UINT64
  | INT8 | INT16 | INT32 | INT64
  | FLOAT | DOUBLE
deriving DecidableEq, Repr

/-- The ten supported scalar element types a chunk can be written or read
with, mirroring the domain of `GSDType::from_type::<T>()` in src/lib.rs
(the Rust function dispatches on the type name of `T`). -/
inductive ScalarType where
  | u8 | u16 | u32 | u64 | i8 | i16 | i32 | i64 | f32 | f64
deriving DecidableEq, Repr

/-- `GSDType::from_type::<T>()` (src/lib.rs): the tag associated with each
supported scalar type.  Any other Rust type panics in the source; here the
domain is exactly the supported set, so the function is total. -/
def GSDType.from_type : ScalarType → GSDType
  | .u8 => .UINT8
  | .u16 => .UINT16
  | .u32 => .UINT32
  | .u64 => .UINT64
  | .i8 => .INT8
  | .i16 => .INT16
  | .i32 => .INT32
  | .i64 => .INT64
  | .f32 => .FLOAT
  | .f64 => .DOUBLE

/-- Typed rendering of the `Err(String)` values produced by the fl layer
(src/fl.rs builds these errors with `format!`; each constructor stands for
one message shape). -/
inductive FlError where
  /-- "mode must be 'wb', 'wb+', 'rb', 'rb+', 'xb', 'xb+', or 'ab'" -/
  | invalidMode
  /-- "If overwriting, must specify application, schema, and schema_version" -/
  | missingMetadata
  /-- "GSD can only write 1 or 2 dimensional arrays: name" -/
  | unsupportedRank (name : String)
  /-- "Type mismatch: stored != expected" (from `GSDType::check_match`) -/
  | typeMismatch (stored expected : GSDType)
  /-- "frame f / chunk name not found in: file" -/
  | chunkNotFound (frame : Nat) (name : String)
  /-- A 0-dimensional buffer makes the source index `dim[0]` out of
  bounds, a panic rather than an `Err`; embedded as a typed outcome. -/
  | rankZeroPanic
deriving DecidableEq, Repr

/-- `GSDType::check_match::<T>()` (src/lib.rs): compares the stored tag
`self` with the tag derived from the requested element type. -/
def GSDType.check_match (self : GSDType) (t : ScalarType) : Except FlError Unit :=
  let check_type := GSDType.from_type t
  if self ≠ check_type then .error (.typeMismatch self check_type)
  else .ok ()

/-- `enum OpenFlag` (src/lib.rs). -/
inductive OpenFlag where
  | Readwrite | Readonly | Append
deriving DecidableEq, Repr

/-! ## The chunked storage engine and the file handle (src/fl.rs)

The engine behind `gsd_sys` (gsd_open, gsd_write_chunk, gsd_find_chunk,
gsd_read_chunk, gsd_end_frame, gsd_get_nframes, ...) is an external C
library, not part of this repository's sources.  Its state is modelled
from the spec: a current (not yet committed) frame counter and an index of
written chunks keyed by (frame, name), where a chunk becomes visible to
lookups only once its frame is committed by `end_frame`. -/

/-- One index entry of the engine: the stored type tag, the row/column
counts and the stored element payload, mirroring the fields of
`gsd_index_entry` that src/fl.rs reads (`type_`, `N`, `M`) plus the data
the engine would return from `gsd_read_chunk`. -/
structure IndexEntry (β : Type) where
  type_ : GSDType
  N : Nat
  M : Nat
  data : List β
deriving DecidableEq

/-- Engine calls performed by the fl layer, recorded so that theorems can
state that an error path performs no engine call at all. -/
inductive EngineCall (β : Type) where
  | createAndOpen (name application schema : String)
      (schema_version : Nat × Nat) (flags : OpenFlag) (exclusive : Bool)
  | openCall (name : String) (flags : OpenFlag)
  | writeChunkCall (name : String) (type_ : GSDType) (n m : Nat) (data : List β)
deriving DecidableEq

/-- Modelled from the spec: the state behind a `GSDFile` (src/fl.rs):
the handle's path, mode and header metadata (application, schema, schema
version, §6 of the spec) together with the engine state — the number of
committed frames (`curFrame`, the frame currently accepting writes) and
the list of written chunks, newest first. -/
structure GSDFileState (β : Type) where
  name : String
  mode : String
  application : String
  schema : String
  schemaVersion : Nat × Nat
  curFrame : Nat
  entries : List (Nat × String × IndexEntry β)
deriving DecidableEq

/-- The mode-string match at the head of `GSDFile::try_new` (src/fl.rs):
for a recognised mode, the `(c_flags, overwrite, exclusive_create)`
triple; `none` for the `_` arm that produces the invalid-mode error. -/
def modeFlags (mode : String) : Option (OpenFlag × Bool × Bool) :=
  match mode with
  | "wb" => some (.Append, true, false)
  | "wb+" => some (.Readwrite, true, false)
  | "rb" => some (.Readonly, false, false)
  | "rb+" => some (.Readwrite, false, false)
  | "xb" => some (.Append, true, true)
  | "xb+" => some (.Readwrite, true, true)
  | "ab" => some (.Append, false, false)
  | _ => none

/-- `GSDFile::try_new` (src/fl.rs): resolves the mode string, then either
creates (overwrite modes, which first require application, schema and
schema_version to all be supplied) or opens the file through the engine.
The second component records the engine calls made; error returns happen
before any engine call.  The contents an `open` call would load from disk
live in the engine and are not modelled — the result is collapsed to
`Unit`, the claims about this function only concern its error paths and
its engine-call trace. -/
def GSDFile.try_new (β : Type) (name mode : String)
    (application schema : Option String)
    (schema_version : Option (Nat × Nat)) :
    Except FlError Unit × List (EngineCall β) :=
  match modeFlags mode with
  | none => (.error .invalidMode, [])
  | some (c_flags, overwrite, exclusive_create) =>
    if overwrite then
      match application, schema, schema_version with
      | some app, some sch, some ver =>
        (.ok (), [.createAndOpen name app sch ver c_flags exclusive_create])
      | _, _, _ => (.error .missingMetadata, [])
    else
      (.ok (), [.openCall name c_flags])

/-- `GSDFile::nframes` (src/fl.rs): delegates to `gsd_get_nframes`, the
number of committed frames. -/
def GSDFile.nframes (s : GSDFileState β) : Nat :=
  s.curFrame

/-- `GSDFile::end_frame` (src/fl.rs): commits the current frame (engine
`gsd_end_frame`); subsequent writes target the next frame. -/
def GSDFile.end_frame (s : GSDFileState β) : GSDFileState β :=
  { s with curFrame := s.curFrame + 1 }

/-- `GSDFile::write_chunk` (src/fl.rs): dispatches on the buffer rank
exactly as the source does — rank 2 keeps `(rows, cols)`, rank 1 becomes
`(N, 1)`, rank above 2 returns the unsupported-rank error before any
engine call (rank 0 would panic in the source at `dim[0]`).  On the
success paths the engine write is performed: the entry is recorded at the
current frame and the call is traced. -/
def GSDFile.write_chunk (s : GSDFileState β) (name : String) (t : ScalarType)
    (shape : List Nat) (data : List β) :
    Except FlError (GSDFileState β) × List (EngineCall β) :=
  match shape with
  | [n, m] =>
    let gsd_type := GSDType.from_type t
    (.ok { s with entries := (s.curFrame, name, ⟨gsd_type, n, m, data⟩) :: s.entries },
     [.writeChunkCall name gsd_type n m data])
  | [n] =>
    let gsd_type := GSDType.from_type t
    (.ok { s with entries := (s.curFrame, name, ⟨gsd_type, n, 1, data⟩) :: s.entries },
     [.writeChunkCall name gsd_type n 1 data])
  | [] => (.error .rankZeroPanic, [])
  | _ => (.error (.unsupportedRank name), [])

/-- Modelled from the spec: engine `gsd_find_chunk` (called by
`GSDFile::chunk_exists` and `GSDFile::read_chunk`, src/fl.rs): looks the
(frame, name) pair up in the index.  Only committed frames are visible
(§5 of the spec: a frame becomes visible to readers only after commit);
the newest matching entry is found first. -/
def GSDFile.find_chunk (s : GSDFileState β) (frame : Nat) (name : String) :
    Option (IndexEntry β) :=
  if frame < s.curFrame then
    (s.entries.find? fun e => e.1 == frame && e.2.1 == name).map fun e => e.2.2
  else none

/-- `GSDFile::chunk_exists` (src/fl.rs): the lookup returned a non-null
entry. -/
def GSDFile.chunk_exists (s : GSDFileState β) (frame : Nat) (name : String) : Bool :=
  (GSDFile.find_chunk s frame name).isSome

/-- The `Array2<T>` a successful `read_chunk` returns: an (n × m) buffer
with its elements. -/
structure Array2 (β : Type) where
  n : Nat
  m : Nat
  data : List β
deriving DecidableEq

/-- `GSDFile::read_chunk` (src/fl.rs): finds the chunk (absent means the
chunk-not-found error), validates the stored tag against the requested
element type with `GSDType::check_match`, then reads the stored elements
into a freshly allocated (N × M) buffer. -/
def GSDFile.read_chunk (s : GSDFileState β) (frame : Nat) (name : String)
    (t : ScalarType) : Except FlError (Array2 β) :=
  match GSDFile.find_chunk s frame name with
  | some index_entry =>
    (index_entry.type_.check_match t).bind fun _ =>
      .ok ⟨index_entry.N, index_entry.M, index_entry.data⟩
  | none => .error (.chunkNotFound frame name)

/-! ## The HOOMD snapshot model (src/hoomd.rs)

Numeric payloads the embedded fragment never computes on (the `f32`
slices of the Rust structs) are carried as abstract `Int` lists; the
source only ever constructs these structs through `Default`, so only the
default values matter to the claims. -/

/-- `ConfigurationData` (src/hoomd.rs): `step: u64`, `dimensions: u8`,
`box_: [f32; 6]`. -/
structure ConfigurationData where
  step : Nat
  dimensions : Nat
  box_ : List Int
deriving DecidableEq

/-- `ParticleData` (src/hoomd.rs); fixed-width float rows are flattened
to lists. -/
structure ParticleData where
  n : Nat
  position : Option (List (List Int))
  orientation : Option (List (List Int))
  typeid : Option (List Nat)
  mass : Option (List Int)
  charge : Option (List Int)
  diameter : Option (List Int)
  body : Option (List Int)
  moment_inertia : Option (List (List Int))
  velocity : Option (List (List Int))
  angmom : Option (List (List Int))
  image : Option (List (List Int))
  types : Option (List String)
deriving DecidableEq

/-- `BondData<M>` (src/hoomd.rs); the `[u32; M]` groups are flattened to
lists. -/
structure BondData where
  n : Nat
  types : List String
  typeid : List Nat
  group : List (List Nat)
deriving DecidableEq

/-- `ConstraintData` (src/hoomd.rs). -/
structure ConstraintData where
  n : Nat
  value : List Int
  group : List (List Int)
deriving DecidableEq

/-- `Snapshot` (src/hoomd.rs). -/
structure Snapshot where
  configuration : ConfigurationData
  particles : ParticleData
  bonds : BondData
  angles : BondData
  dihedrals : BondData
  impropers : BondData
  constraints : ConstraintData
  pairs : BondData
deriving DecidableEq

/-- `Snapshot::default()`: every count and the timestep are zero, every
optional field is absent, every slice empty (the Rust `#[derive(Default)]`
instances). -/
def Snapshot.default : Snapshot :=
  { configuration := ⟨0, 0, List.replicate 6 0⟩
    particles := ⟨0, none, none, none, none, none, none, none, none, none, none, none, none⟩
    bonds := ⟨0, [], [], []⟩
    angles := ⟨0, [], [], []⟩
    dihedrals := ⟨0, [], [], []⟩
    impropers := ⟨0, [], [], []⟩
    constraints := ⟨0, [], []⟩
    pairs := ⟨0, [], [], []⟩ }

/-- The panics of the hoomd layer (src/hoomd.rs), embedded as typed
outcomes so that every control path is a value. -/
inductive HoomdPanic where
  /-- `panic!("Append not yet supported!")` -/
  | appendUnsupported
  /-- `panic!("Not a HOOMD schema!")` -/
  | wrongSchema
  /-- `panic!("Incompatible HOOMD schema version!")` -/
  | unsupportedSchemaVersion
  /-- `panic!("Index out of bounds!")` / `panic!("index out of bounds")` -/
  | indexOutOfBounds
  /-- `.unwrap()` of an `Err` from the fl layer -/
  | unwrapPanic (e : FlError)
  /-- `[0]` indexing into an empty buffer -/
  | emptyIndexPanic
deriving DecidableEq, Repr

/-- Rust's derived lexicographic `<` on `(u32, u32)` version pairs. -/
def versionLt (v w : Nat × Nat) : Bool :=
  v.1 < w.1 || (v.1 = w.1 && v.2 < w.2)

/-- Rust's derived lexicographic `>=` on `(u32, u32)` version pairs. -/
def versionGe (v w : Nat × Nat) : Bool :=
  !(versionLt v w)

/-- `HOOMDTrajectory` (src/hoomd.rs): the owned file and the frame-0
snapshot cache.  The hoomd layer reads `configuration/step` as `usize`,
so the element payload is `Nat` here. -/
structure HOOMDTrajectory where
  file : GSDFileState Nat
  initial_frame : Option Snapshot
deriving DecidableEq

/-- `HOOMDTrajectory::new` (src/hoomd.rs): wraps the file, empty cache,
no I/O. -/
def HOOMDTrajectory.new (file : GSDFileState Nat) : HOOMDTrajectory :=
  ⟨file, none⟩

/-- `HOOMDTrajectory::try_new` (src/hoomd.rs): rejects the append mode,
a schema other than "hoomd", and a schema version `v` with
`v < (2, 0) && v >= (1, 0)` (the source's condition, verbatim), otherwise
delegates to `new`.  The source's rejections are `panic!`s; they are
embedded as error outcomes. -/
def HOOMDTrajectory.try_new (file : GSDFileState Nat) :
    Except HoomdPanic HOOMDTrajectory :=
  if file.mode = "ab" then .error .appendUnsupported
  else if file.schema ≠ "hoomd" then .error .wrongSchema
  else if versionLt file.schemaVersion (2, 0) && versionGe file.schemaVersion (1, 0) then
    .error .unsupportedSchemaVersion
  else .ok (HOOMDTrajectory.new file)

/-- `HOOMDTrajectory::len` (src/hoomd.rs): delegates to the file's
`nframes`. -/
def HOOMDTrajectory.len (t : HOOMDTrajectory) : Nat :=
  GSDFile.nframes t.file

/-- Modelled from the spec: `GSDFile::read_chunk_flat`, called by
`HOOMDTrajectory::_read_frame` but absent from src/fl.rs — rendered as
the spec's `read_chunk` (§4.2) without the element-type parameter: the
chunk lookup fails with the chunk-not-found error when the chunk is
absent, otherwise the stored elements are returned flattened. -/
def GSDFile.read_chunk_flat (s : GSDFileState β) (frame : Nat) (name : String) :
    Except FlError (List β) :=
  match GSDFile.find_chunk s frame name with
  | some index_entry => .ok index_entry.data
  | none => .error (.chunkNotFound frame name)

/-- Rust `.unwrap()` on a fl-layer `Result`: an `Err` becomes a panic. -/
def unwrapFl : Except FlError α → Except HoomdPanic α
  | .ok a => .ok a
  | .error e => .error (.unwrapPanic e)

/-- Rust `buf[0]` on the flattened chunk data: panics when empty. -/
def headIndex : List β → Except HoomdPanic β
  | [] => .error .emptyIndexPanic
  | a :: _ => .ok a

/-- The `configuration/step` read both branches of
`HOOMDTrajectory::_read_frame` perform (src/hoomd.rs lines 184-189):
`self.file.read_chunk_flat(idx, "configuration/step").unwrap()[0]`. -/
def stepRead (t : HOOMDTrajectory) (idx : Nat) : Except HoomdPanic Nat :=
  (unwrapFl (GSDFile.read_chunk_flat t.file idx "configuration/step")).bind headIndex

/-- The body of `HOOMDTrajectory::_read_frame` (src/hoomd.rs), with the
recursive `self._read_frame(0)` call abstracted into the `frame0`
argument: the bounds guard is `idx > self.len()` (the source's condition,
verbatim); when the frame-0 cache is empty and `idx != 0` the frame-0
read runs and its result is discarded (the source never assigns
`initial_frame`); then `configuration/step` is read from frame `idx` in
both the chunk-exists and the chunk-missing branch (the source's
duplicated branches), the value is bound and unused, and
`Snapshot::default()` is returned. -/
def HOOMDTrajectory.read_frame_body (t : HOOMDTrajectory)
    (frame0 : Except HoomdPanic Snapshot) (idx : Nat) :
    Except HoomdPanic Snapshot :=
  if idx > t.len then .error .indexOutOfBounds
  else
    (if t.initial_frame.isNone && idx != 0 then frame0.map fun _ => () else .ok ()).bind
      fun _ =>
    (if GSDFile.chunk_exists t.file idx "configuration/step" then
        stepRead t idx
      else
        stepRead t idx).bind fun _step =>
    .ok Snapshot.default

/-- `HOOMDTrajectory::_read_frame` (src/hoomd.rs).  The source's only
recursion is the call `self._read_frame(0)` reached when `idx != 0`, and
at `idx = 0` that guard is false, so the recursion is exactly one
unrolling of the body: the inner occurrence runs at index 0 and never
touches its own `frame0` argument (the placeholder passed there is
unreachable). -/
def HOOMDTrajectory.read_frame (t : HOOMDTrajectory) (idx : Nat) :
    Except HoomdPanic Snapshot :=
  HOOMDTrajectory.read_frame_body t
    (HOOMDTrajectory.read_frame_body t (.error .indexOutOfBounds) 0) idx

/-- `HOOMDTrajectory::index` (src/hoomd.rs): alias for `_read_frame`. -/
def HOOMDTrajectory.index (t : HOOMDTrajectory) (idx : Nat) :
    Except HoomdPanic Snapshot :=
  HOOMDTrajectory.read_frame t idx

/-! ## Views and iterators (src/hoomd.rs) -/

/-- Rust's `Range<usize>` (`start..end`); `end` is a Lean keyword, so the
field is named `stop`. -/
structure RustRange where
  start : Nat
  stop : Nat
deriving DecidableEq, Repr

/-- `Range::<usize>::len()`: `end - start`, zero when the range is
degenerate (`Nat` subtraction truncates exactly as the Rust iterator
length does). -/
def RustRange.rlen (r : RustRange) : Nat :=
  r.stop - r.start

/-- The `(Range<usize>, usize)` slice descriptor shared by
`HOOMDTrajectoryView` and `HOOMDTrajectoryIterator` (src/hoomd.rs). -/
structure Slice where
  range : RustRange
  stride : Nat
deriving DecidableEq, Repr

/-- `HOOMDTrajectory::view` (src/hoomd.rs): wraps the given slice over
the trajectory unchanged. -/
def HOOMDTrajectory.view (s : Slice) : Slice :=
  s

/-- `HOOMDTrajectoryView::view` (src/hoomd.rs): sub-view composition —
the child's `end` is clamped to the parent's item count, then start and
end are mapped into absolute coordinates by the parent's stride and
offset, and the strides multiply. -/
def HOOMDTrajectoryView.view (parent child : Slice) : Slice :=
  let items := parent.range.rlen / parent.stride
  let cstop := if child.range.stop > items then items else child.range.stop
  ⟨⟨child.range.start * parent.stride + parent.range.start,
    cstop * parent.stride + parent.range.start⟩,
   child.stride * parent.stride⟩

/-- `HOOMDTrajectoryView::len` / `HOOMDTrajectoryIterator::len`
(src/hoomd.rs): `slice.0.len() / slice.1`. -/
def HOOMDTrajectoryView.len (s : Slice) : Nat :=
  s.range.rlen / s.stride

/-- `HOOMDTrajectoryView::index` (src/hoomd.rs): maps the logical index
to the absolute frame `start + idx * stride`, panics when that is `>=`
the range's end, otherwise reads the frame from the trajectory. -/
def HOOMDTrajectoryView.index (t : HOOMDTrajectory) (s : Slice) (idx : Nat) :
    Except HoomdPanic Snapshot :=
  let idx := s.range.start + idx * s.stride
  if idx ≥ s.range.stop then .error .indexOutOfBounds
  else HOOMDTrajectory.read_frame t idx

/-- `<&HOOMDTrajectoryView as IntoIterator>::into_iter` =
`HOOMDTrajectoryView::iter` (src/hoomd.rs): the iterator state is a fresh
copy (`to_owned`) of the view's slice, so every call starts over from the
slice's `start`. -/
def HOOMDTrajectoryView.iter (s : Slice) : Slice :=
  s

/-- `<HOOMDTrajectoryIterator as Iterator>::next` (src/hoomd.rs): yields
the current `start` (the absolute frame index passed to
`trajectory.index`) and advances `start` by the stride; `none` once
`start >= end`. -/
def HOOMDTrajectoryIterator.next (s : Slice) : Option (Nat × Slice) :=
  if s.range.start ≥ s.range.stop then none
  else some (s.range.start, ⟨⟨s.range.start + s.stride, s.range.stop⟩, s.stride⟩)

/-- Repeated `next` until exhaustion, collecting the absolute frame
indices the iterator visits (each visited index `i` is the frame read as
`trajectory.index(i)` for the yielded snapshot).  The fuel `rlen` bounds
the number of steps; it suffices whenever the stride is positive (every
constructor of an iterator in the source asserts or composes positive
strides; at stride 0 the Rust loop would not terminate). -/
def traverseAux : Nat → Slice → List Nat
  | 0, _ => []
  | fuel + 1, s =>
    match HOOMDTrajectoryIterator.next s with
    | none => []
    | some (i, s') => i :: traverseAux fuel s'

/-- The full traversal of an iterator started on the given slice. -/
def Slice.traverse (s : Slice) : List Nat :=
  traverseAux s.range.rlen s

/-! ## Concrete states used to settle the claims -/

/-- A stored `configuration/step` chunk holding the single value `v`
(tag UINT64, shape (1, 1)). -/
def stepEntry (v : Nat) : IndexEntry Nat :=
  ⟨.UINT64, 1, 1, [v]⟩

/-- A 4-frame read-only hoomd file whose frame 0 defines
`configuration/step` = 0 and whose frame 3 omits it. -/
def fileSparse : GSDFileState Nat :=
  ⟨"test.gsd", "rb", "app", "hoomd", (1, 0), 4,
   [(0, "configuration/step", stepEntry 0)]⟩

/-- The trajectory over `fileSparse`, frame-0 cache empty. -/
def trajSparse : HOOMDTrajectory :=
  ⟨fileSparse, none⟩

/-- A 4-frame hoomd file whose frame 0 defines `configuration/step` = 0
and whose frame 3 defines `configuration/step` = 7. -/
def fileDense : GSDFileState Nat :=
  ⟨"test.gsd", "rb", "app", "hoomd", (1, 0), 4,
   [(3, "configuration/step", stepEntry 7),
    (0, "configuration/step", stepEntry 0)]⟩

/-- The trajectory over `fileDense`, frame-0 cache empty. -/
def trajDense : HOOMDTrajectory :=
  ⟨fileDense, none⟩

/-- A 1-frame hoomd file whose only frame defines `configuration/step`. -/
def fileOne : GSDFileState Nat :=
  ⟨"test.gsd", "rb", "app", "hoomd", (1, 0), 1,
   [(0, "configuration/step", stepEntry 0)]⟩

/-- The trajectory over `fileOne`. -/
def trajOne : HOOMDTrajectory :=
  ⟨fileOne, none⟩

/-- A 5-frame hoomd file defining `configuration/step` in frames 0 and
4. -/
def fileFive : GSDFileState Nat :=
  ⟨"test.gsd", "rb", "app", "hoomd", (1, 0), 5,
   [(4, "configuration/step", stepEntry 4),
    (0, "configuration/step", stepEntry 0)]⟩

/-- The trajectory over `fileFive`. -/
def trajFive : HOOMDTrajectory :=
  ⟨fileFive, none⟩

/-! ## Helper lemmas -/

/-- `GSDType.from_type` is injective: distinct scalar types map to
distinct storage tags. -/
theorem from_type_injective (a b : ScalarType)
    (h : GSDType.from_type a = GSDType.from_type b) : a = b := by
  cases a <;> cases b <;> simp_all [GSDType.from_type]

/-- A clamped bound written as the source's conditional equals `min`. -/
theorem ite_gt_eq_min (x y : Nat) : (if x > y then y else x) = min x y := by
  split <;> omega

/-- With positive stride and enough fuel, the iterator traversal is the
arithmetic progression `start, start + stride, ...` of length
`⌈rlen / stride⌉`. -/
theorem traverseAux_eq (fuel : Nat) :
    ∀ s : Slice, 1 ≤ s.stride → s.range.rlen ≤ fuel →
      traverseAux fuel s
        = (List.range ((s.range.rlen + s.stride - 1) / s.stride)).map
            (fun i => s.range.start + i * s.stride) := by
  induction fuel with
  | zero =>
    rintro ⟨⟨a, b⟩, st⟩ hst hlen
    replace hst : 1 ≤ st := hst
    simp only [RustRange.rlen] at hlen ⊢
    rw [show b - a = 0 by omega, Nat.div_eq_of_lt (by omega)]
    simp [traverseAux]
  | succ fuel ih =>
    rintro ⟨⟨a, b⟩, st⟩ hst hlen
    replace hst : 1 ≤ st := hst
    simp only [RustRange.rlen] at hlen ⊢
    by_cases hab : b ≤ a
    · rw [show b - a = 0 by omega, Nat.div_eq_of_lt (by omega)]
      simp [traverseAux, HOOMDTrajectoryIterator.next, hab]
    · push_neg at hab
      have hnext : HOOMDTrajectoryIterator.next ⟨⟨a, b⟩, st⟩
          = some (a, ⟨⟨a + st, b⟩, st⟩) := by
        simp [HOOMDTrajectoryIterator.next]
        omega
      have ihx := ih ⟨⟨a + st, b⟩, st⟩ hst (by simp only [RustRange.rlen]; omega)
      simp only [RustRange.rlen] at ihx
      have hk2 : (b - (a + st) + st - 1) / st = (b - a - 1) / st := by
        by_cases hone : b - a ≤ st
        · rw [show b - (a + st) = 0 by omega,
            Nat.div_eq_of_lt (by omega), Nat.div_eq_of_lt (by omega)]
        · congr 1
          omega
      have hk1 : (b - a + st - 1) / st = (b - a - 1) / st + 1 := by
        rw [show b - a + st - 1 = (b - a - 1) + st by omega,
          Nat.add_div_right _ (by omega)]
      rw [traverseAux, hnext]
      simp only [ihx, hk2, hk1, List.range_succ_eq_map, List.map_cons, List.map_map,
        Nat.zero_mul, Nat.add_zero]
      refine congrArg₂ _ rfl (List.map_congr_left fun i _ => ?_)
      simp only [Function.comp_apply, Nat.succ_eq_add_one]
      ring

/-- The full traversal of a positive-stride iterator, in closed form. -/
theorem traverse_eq (s : Slice) (hst : 1 ≤ s.stride) :
    s.traverse
      = (List.range ((s.range.rlen + s.stride - 1) / s.stride)).map
          (fun i => s.range.start + i * s.stride) :=
  traverseAux_eq s.range.rlen s hst (Nat.le_refl _)

/-- A positive-stride iterator yields `⌈rlen / stride⌉` items. -/
theorem traverse_length (s : Slice) (hst : 1 ≤ s.stride) :
    s.traverse.length = (s.range.rlen + s.stride - 1) / s.stride := by
  rw [traverse_eq s hst]
  simp

/-- The ceiling division collapses to the floor division exactly on
multiples of the stride. -/
theorem ceil_div_eq_of_dvd (st d : Nat) (hst : 1 ≤ st) (h : st ∣ d) :
    (d + st - 1) / st = d / st := by
  obtain ⟨q, rfl⟩ := h
  rw [Nat.add_sub_assoc hst, Nat.mul_add_div (by omega),
    Nat.div_eq_of_lt (by omega), Nat.mul_div_cancel_left _ (by omega)]
  omega

/-! ## Claim theorems -/

/-- C1: the code does not implement the claimed sparse-frame inheritance.
On `trajSparse` (frame 0 defines `configuration/step` = 0, frame 3 omits
it), reading frame 3 does not inherit `step == 0`: the chunk-missing
branch of `_read_frame` reads `configuration/step` from frame 3 itself
and `.unwrap()`s the chunk-not-found error, a panic.  On `trajDense`
(frame 3 defines `configuration/step` = 7), the read succeeds but returns
`Snapshot::default()` with `step = 0`, not the frame's own value 7 — no
field is ever populated from the file and the frame-0 cache is never
written, so no field can be "copied from the cached frame-0 snapshot". -/
theorem read_frame_ignores_frame0_defaults :
    HOOMDTrajectory.read_frame trajSparse 3
        = .error (.unwrapPanic (.chunkNotFound 3 "configuration/step"))
    ∧ HOOMDTrajectory.read_frame trajDense 3 = .ok Snapshot.default
    ∧ Snapshot.default.configuration.step = 0
    ∧ GSDFile.read_chunk_flat fileDense 3 "configuration/step" = .ok [7]
    ∧ trajSparse.initial_frame = none := by
  decide

/-- C2 counterexample: on a 10-frame trajectory, `view(0..10, 1)`
followed by `.view(0..5, 2)` traverses the absolute frame indices
[0, 2, 4], not the claimed [0, 2, 4, 6, 8] — the composed range's end is
mapped by the parent's stride only (`new_end = parent.start +
child.end*parent.stride`), so the child's own stride does not extend the
range.  The further `.view(1..3, 1)` (end 3 clamped to the parent's 2
items) traverses [2], not the claimed [2, 4]. -/
theorem view_composition_example_counterexample :
    (HOOMDTrajectoryView.view (HOOMDTrajectory.view ⟨⟨0, 10⟩, 1⟩) ⟨⟨0, 5⟩, 2⟩).traverse
        ≠ [0, 2, 4, 6, 8]
    ∧ (HOOMDTrajectoryView.view (HOOMDTrajectory.view ⟨⟨0, 10⟩, 1⟩) ⟨⟨0, 5⟩, 2⟩).traverse
        = [0, 2, 4]
    ∧ (HOOMDTrajectoryView.view
          (HOOMDTrajectoryView.view (HOOMDTrajectory.view ⟨⟨0, 10⟩, 1⟩) ⟨⟨0, 5⟩, 2⟩)
          ⟨⟨1, 3⟩, 1⟩).traverse
        ≠ [2, 4]
    ∧ (HOOMDTrajectoryView.view
          (HOOMDTrajectoryView.view (HOOMDTrajectory.view ⟨⟨0, 10⟩, 1⟩) ⟨⟨0, 5⟩, 2⟩)
          ⟨⟨1, 3⟩, 1⟩).traverse
        = [2] := by
  decide

/-- C2 amended: `view(0..10, 1)` then `.view(0..5, 2)` traverses the
absolute indices [0, 2, 4], and a further `.view(1..3, 1)` (its end
clamped to the parent's 2 items) traverses [2]; sub-view composition maps
`new_start = parent.start + child.start*parent.stride`, `new_stride =
child.stride*parent.stride` and `new_end = parent.start +
child.end*parent.stride`, with the child's end clamped to the parent's
item count before mapping; consequently the composed view's i-th visited
position is the parent's position at logical index
`child.start + i*child.stride`. -/
theorem view_composition_amended :
    ((HOOMDTrajectoryView.view (HOOMDTrajectory.view ⟨⟨0, 10⟩, 1⟩) ⟨⟨0, 5⟩, 2⟩).traverse
        = [0, 2, 4]
      ∧ (HOOMDTrajectoryView.view
            (HOOMDTrajectoryView.view (HOOMDTrajectory.view ⟨⟨0, 10⟩, 1⟩) ⟨⟨0, 5⟩, 2⟩)
            ⟨⟨1, 3⟩, 1⟩).traverse
          = [2])
    ∧ (∀ parent child : Slice,
        (HOOMDTrajectoryView.view parent child).range.start
            = child.range.start * parent.stride + parent.range.start
        ∧ (HOOMDTrajectoryView.view parent child).stride
            = child.stride * parent.stride
        ∧ (HOOMDTrajectoryView.view parent child).range.stop
            = min child.range.stop (parent.range.rlen / parent.stride) * parent.stride
                + parent.range.start)
    ∧ (∀ (parent child : Slice) (i : Nat),
        (HOOMDTrajectoryView.view parent child).range.start
            + i * (HOOMDTrajectoryView.view parent child).stride
          = parent.range.start + (child.range.start + i * child.stride) * parent.stride) := by
  refine ⟨by decide, fun parent child => ⟨rfl, rfl, ?_⟩, fun parent child i => ?_⟩
  · simp only [HOOMDTrajectoryView.view, ite_gt_eq_min]
  · simp only [HOOMDTrajectoryView.view]
    ring

/-- C3 counterexample: the view `(0..5, 2)` has `len() = 2` but a full
forward iteration yields 3 snapshots (frames 0, 2 and 4): `next` keeps
yielding while `start < end`, so the iteration count is
`⌈(end-start)/stride⌉`, which exceeds `(end-start)/stride` whenever the
stride does not divide the range length. -/
theorem view_len_iteration_counterexample :
    HOOMDTrajectoryView.len ⟨⟨0, 5⟩, 2⟩ = 2
    ∧ (Slice.traverse ⟨⟨0, 5⟩, 2⟩).length = 3
    ∧ (Slice.traverse ⟨⟨0, 5⟩, 2⟩).length ≠ HOOMDTrajectoryView.len ⟨⟨0, 5⟩, 2⟩ := by
  decide

/-- C3 amended: for every view with stride > 0, `len()` equals
`(end-start)/stride` by integer division, while a full forward iteration
of the iterator obtained from `iter()` visits exactly
`⌈(end-start)/stride⌉` positions — the arithmetic progression `start,
start + stride, ...` in increasing order — which equals `len()` exactly
when the stride divides `end-start`.  `iter()` copies the view's slice,
so each call yields a fresh traversal starting again from `start` (in
this embedding the traversal is a function of the view's slice alone). -/
theorem view_len_iteration_amended (s : Slice) (hst : 1 ≤ s.stride) :
    HOOMDTrajectoryView.len s = (s.range.stop - s.range.start) / s.stride
    ∧ (HOOMDTrajectoryView.iter s).traverse
        = (List.range ((s.range.rlen + s.stride - 1) / s.stride)).map
            (fun i => s.range.start + i * s.stride)
    ∧ (HOOMDTrajectoryView.iter s).traverse.length
        = (s.range.rlen + s.stride - 1) / s.stride
    ∧ (s.stride ∣ s.range.rlen →
        (HOOMDTrajectoryView.iter s).traverse.length = HOOMDTrajectoryView.len s) := by
  refine ⟨rfl, traverse_eq s hst, traverse_length s hst, fun hdvd => ?_⟩
  show s.traverse.length = HOOMDTrajectoryView.len s
  rw [traverse_length s hst, ceil_div_eq_of_dvd s.stride s.range.rlen hst hdvd]
  rfl

/-- C3 amended, instantiated: the concrete view `(0..10, 2)`. -/
theorem view_len_iteration_amended_witness :
    HOOMDTrajectoryView.len ⟨⟨0, 10⟩, 2⟩ = (10 - 0) / 2
    ∧ (HOOMDTrajectoryView.iter ⟨⟨0, 10⟩, 2⟩).traverse
        = (List.range ((10 - 0 + 2 - 1) / 2)).map (fun i => 0 + i * 2)
    ∧ (HOOMDTrajectoryView.iter ⟨⟨0, 10⟩, 2⟩).traverse.length = (10 - 0 + 2 - 1) / 2
    ∧ ((2 : Nat) ∣ 10 - 0 →
        (HOOMDTrajectoryView.iter ⟨⟨0, 10⟩, 2⟩).traverse.length
          = HOOMDTrajectoryView.len ⟨⟨0, 10⟩, 2⟩) :=
  view_len_iteration_amended ⟨⟨0, 10⟩, 2⟩ (by decide)

/-- C4: the trajectory's bounds guard is `idx > len()`, not
`idx >= len()`.  On a 1-frame trajectory, reading index 1 (= `len()`)
passes the guard and proceeds into the nonexistent frame, where the
`configuration/step` read `.unwrap()`s a chunk-not-found error — a panic,
but not the claimed `IndexOutOfBounds` — while index 2 does hit the
`IndexOutOfBounds` panic.  Likewise a view's check fires on the mapped
absolute index reaching the range's end, i.e. at
`idx >= ⌈(end-start)/stride⌉`, not at `idx >= len()`: on the view
`(0..5, 2)` with `len() = 2`, index access at 2 maps to frame 4 < 5 and
succeeds.  In-bounds access (index 0, and view index 1 at frame 2 absent
but in range) never fails with `IndexOutOfBounds`. -/
theorem index_bounds_guard_off_by_one :
    HOOMDTrajectory.len trajOne = 1
    ∧ HOOMDTrajectory.read_frame trajOne 1
        = .error (.unwrapPanic (.chunkNotFound 1 "configuration/step"))
    ∧ HOOMDTrajectory.read_frame trajOne 1 ≠ .error .indexOutOfBounds
    ∧ HOOMDTrajectory.read_frame trajOne 2 = .error .indexOutOfBounds
    ∧ HOOMDTrajectory.read_frame trajOne 0 = .ok Snapshot.default
    ∧ HOOMDTrajectoryView.len ⟨⟨0, 5⟩, 2⟩ = 2
    ∧ HOOMDTrajectoryView.index trajFive ⟨⟨0, 5⟩, 2⟩ 2 = .ok Snapshot.default
    ∧ HOOMDTrajectoryView.index trajFive ⟨⟨0, 5⟩, 2⟩ 2 ≠ .error .indexOutOfBounds
    ∧ HOOMDTrajectoryView.index trajFive ⟨⟨0, 5⟩, 2⟩ 3 = .error .indexOutOfBounds := by
  decide

/-- C5: `HOOMDTrajectory::try_new`'s schema-version check is inverted and
its rejections are panics, not a returned `SchemaError`.  On a handle
with mode "rb", schema "hoomd" and version (1, 0) — a version inside the
supported range — the source panics with "Incompatible HOOMD schema
version!" (the condition `version < (2, 0) && version >= (1, 0)` is true
exactly on [1.0, 2.0)), while versions (5, 0) and (0, 1), outside any
contiguous supported range, are accepted.  The append-mode and
wrong-schema rejections do fire on their claimed conditions (as panics). -/
theorem try_new_version_check_inverted :
    HOOMDTrajectory.try_new fileOne = .error .unsupportedSchemaVersion
    ∧ fileOne.schemaVersion = (1, 0)
    ∧ fileOne.mode = "rb"
    ∧ fileOne.schema = "hoomd"
    ∧ HOOMDTrajectory.try_new { fileOne with schemaVersion := (5, 0) }
        = .ok (HOOMDTrajectory.new { fileOne with schemaVersion := (5, 0) })
    ∧ HOOMDTrajectory.try_new { fileOne with schemaVersion := (0, 1) }
        = .ok (HOOMDTrajectory.new { fileOne with schemaVersion := (0, 1) })
    ∧ HOOMDTrajectory.try_new { fileOne with mode := "ab" }
        = .error .appendUnsupported
    ∧ HOOMDTrajectory.try_new { fileOne with schema := "other" }
        = .error .wrongSchema := by
  decide

/-- C6: round-trip.  For every supported element type, writing a buffer
of shape (N, M) as a chunk, committing the frame, and reading it back
with `read_chunk` of the same type from the same frame and name yields a
buffer of shape (N, M) with the written elements unchanged; a rank-1
buffer of length N reads back as shape (N, 1).  The element payload `β`
is abstract: the layer stores and returns elements verbatim for all ten
tags, floats included. -/
theorem write_read_chunk_roundtrip (β : Type) (s : GSDFileState β)
    (name : String) (t : ScalarType) (n m : Nat) (data : List β) :
    ((GSDFile.write_chunk s name t [n, m] data).1.map fun s1 =>
        GSDFile.read_chunk (GSDFile.end_frame s1) (GSDFile.nframes s) name t)
      = .ok (.ok ⟨n, m, data⟩)
    ∧ ((GSDFile.write_chunk s name t [n] data).1.map fun s1 =>
        GSDFile.read_chunk (GSDFile.end_frame s1) (GSDFile.nframes s) name t)
      = .ok (.ok ⟨n, 1, data⟩) := by
  have hlt : s.curFrame < s.curFrame + 1 := Nat.lt_succ_self _
  constructor <;>
    simp [GSDFile.write_chunk, GSDFile.end_frame, GSDFile.read_chunk, GSDFile.find_chunk,
      GSDFile.nframes, GSDType.check_match, Except.map, Except.bind, hlt]

/-- C7: reading a chunk with an element type different from the one it
was written with fails with the type-mismatch error, for every mismatched
pair of supported types; and `check_match` succeeds exactly when the
stored tag equals the tag of the requested type — no coercion path
exists. -/
theorem read_chunk_type_mismatch (β : Type) (s : GSDFileState β)
    (name : String) (t u : ScalarType) (hne : t ≠ u) (n m : Nat) (data : List β)
    (tag : GSDType) (v : ScalarType) :
    ((GSDFile.write_chunk s name t [n, m] data).1.map fun s1 =>
        GSDFile.read_chunk (GSDFile.end_frame s1) (GSDFile.nframes s) name u)
      = .ok (.error (.typeMismatch (GSDType.from_type t) (GSDType.from_type u)))
    ∧ (tag.check_match v = .ok () ↔ tag = GSDType.from_type v) := by
  have htags : GSDType.from_type t ≠ GSDType.from_type u :=
    fun hc => hne (from_type_injective t u hc)
  have hlt : s.curFrame < s.curFrame + 1 := Nat.lt_succ_self _
  constructor
  · simp [GSDFile.write_chunk, GSDFile.end_frame, GSDFile.read_chunk, GSDFile.find_chunk,
      GSDFile.nframes, GSDType.check_match, Except.map, Except.bind, hlt, htags]
  · constructor
    · intro h
      by_contra hc
      simp [GSDType.check_match, hc] at h
    · intro h
      simp [GSDType.check_match, h]

/-- C7 witness: a `u8` chunk read back as `f32`. -/
theorem read_chunk_type_mismatch_witness :
    ((GSDFile.write_chunk fileOne "c" .u8 [1, 1] [5]).1.map fun s1 =>
        GSDFile.read_chunk (GSDFile.end_frame s1) (GSDFile.nframes fileOne) "c" .f32)
      = .ok (.error (.typeMismatch (GSDType.from_type .u8) (GSDType.from_type .f32)))
    ∧ (GSDType.check_match .UINT8 .f32 = .ok () ↔ .UINT8 = GSDType.from_type .f32) :=
  read_chunk_type_mismatch Nat fileOne "c" .u8 .f32 (by decide) 1 1 [5] .UINT8 .f32

/-- C8: opening with any mode string other than the seven supported ones
returns the invalid-mode error, and the engine-call trace is empty — the
engine open/create functions are never invoked. -/
theorem try_new_invalid_mode (β : Type) (name mode : String)
    (application schema : Option String) (schema_version : Option (Nat × Nat))
    (h : mode ∉ ["wb", "wb+", "rb", "rb+", "xb", "xb+", "ab"]) :
    GSDFile.try_new β name mode application schema schema_version
      = (.error .invalidMode, []) := by
  have hm : modeFlags mode = none := by
    unfold modeFlags
    split <;> simp_all
  simp [GSDFile.try_new, hm]

/-- C8 witness: the mode string "qb". -/
theorem try_new_invalid_mode_witness :
    GSDFile.try_new Nat "f.gsd" "qb" none none none
      = (.error .invalidMode, ([] : List (EngineCall Nat))) :=
  try_new_invalid_mode Nat "f.gsd" "qb" none none none (by decide)

/-- C9: `write_chunk` normalizes the buffer shape before any engine
call: a rank-1 buffer of length N is written as (N, 1), a rank-2 buffer
as (rows, cols), and a buffer of rank greater than 2 fails with the
unsupported-rank error with an empty engine-call trace (no engine write
is performed and the file state is untouched). -/
theorem write_chunk_shape_normalization (β : Type) (s : GSDFileState β)
    (name : String) (t : ScalarType) (data : List β)
    (n m a b c : Nat) (rest : List Nat) :
    GSDFile.write_chunk s name t [n] data
      = (.ok { s with
            entries := (s.curFrame, name, ⟨GSDType.from_type t, n, 1, data⟩) :: s.entries },
         [.writeChunkCall name (GSDType.from_type t) n 1 data])
    ∧ GSDFile.write_chunk s name t [n, m] data
      = (.ok { s with
            entries := (s.curFrame, name, ⟨GSDType.from_type t, n, m, data⟩) :: s.entries },
         [.writeChunkCall name (GSDType.from_type t) n m data])
    ∧ GSDFile.write_chunk s name t (a :: b :: c :: rest) data
      = (.error (.unsupportedRank name), []) :=
  ⟨rfl, rfl, rfl⟩

/-- C10: the exclusive-create modes "xb" and "xb+" take the same
overwrite path as "wb" and "wb+": whenever any of application, schema or
schema_version is absent, opening fails with the missing-metadata error
and the engine-call trace is empty (no engine call precedes the check). -/
theorem exclusive_create_requires_metadata (β : Type) (name mode : String)
    (application schema : Option String) (schema_version : Option (Nat × Nat))
    (hmode : mode = "xb" ∨ mode = "xb+" ∨ mode = "wb" ∨ mode = "wb+")
    (hmissing : application = none ∨ schema = none ∨ schema_version = none) :
    GSDFile.try_new β name mode application schema schema_version
      = (.error .missingMetadata, []) := by
  obtain hm | hm | hm | hm := hmode <;> subst hm <;>
    rcases application with _ | app <;> rcases schema with _ | sch <;>
    rcases schema_version with _ | ver <;>
    simp_all [GSDFile.try_new, modeFlags]

/-- C10 witness: mode "xb" with the application name absent. -/
theorem exclusive_create_requires_metadata_witness :
    GSDFile.try_new Nat "f.gsd" "xb" none (some "hoomd") (some (1, 0))
      = (.error .missingMetadata, ([] : List (EngineCall Nat))) :=
  exclusive_create_requires_metadata Nat "f.gsd" "xb" none (some "hoomd") (some (1, 0))
    (Or.inl rfl) (Or.inl rfl)

end GsdRs
